import Mathlib

/-!
Verification of the kiosk client pages: login flow, OTP countdown,
role-based main menu, balance detail page, and the emergency-lockdown
coordination layer.  Every definition below is a shallow embedding of the
corresponding JavaScript in the repository (global.js, script.js, otp.js,
and the balance page script); DOM writes are modelled as fields of explicit
state records, and the eel bridge calls are modelled as an append-only list
of issued backend requests.
-/

namespace Kiosk

/-! ## Modelled JavaScript string and number primitives

The page scripts use a handful of JavaScript builtins: `String.prototype.trim`,
`String.prototype.toLowerCase`, `parseInt`, `parseFloat`,
`Number.prototype.toFixed(2)`, and the `||` default idiom on strings and
numbers.  They are modelled here over `List Char` and `Rat`.  JavaScript
numbers are IEEE doubles; the integral and short decimal values used by
these pages are represented exactly, so `Int`/`Rat` model them faithfully
on the inputs the claims quantify over. -/

/-- Model of `String.prototype.trim`: drop leading and trailing whitespace.
(JavaScript trims the Unicode whitespace and line-terminator classes;
`Char.isWhitespace` covers the characters relevant here.) -/
def jsTrim (s : String) : String :=
  ⟨((s.data.dropWhile Char.isWhitespace).reverse.dropWhile Char.isWhitespace).reverse⟩

/-- Model of `String.prototype.toLowerCase` (ASCII range). -/
def jsToLowerCase (s : String) : String :=
  ⟨s.data.map Char.toLower⟩

/-- Model of the JavaScript `x || dflt` default idiom on strings:
`null` (here `none`) and the empty string are falsy. -/
def jsOrElse (v : Option String) (dflt : String) : String :=
  match v with
  | none => dflt
  | some s => if s = "" then dflt else s

/-- Value of a list of decimal digit characters. -/
def decDigitsVal (ds : List Char) : Nat :=
  ds.foldl (fun a c => 10 * a + (c.toNat - 48)) 0

/-- One hexadecimal digit character to its value. -/
def hexDigitVal (c : Char) : Nat :=
  if c.isDigit then c.toNat - 48
  else if 'a' ≤ c ∧ c ≤ 'f' then c.toNat - 87
  else c.toNat - 55

/-- Whether a character is a hexadecimal digit. -/
def isHexDigit (c : Char) : Bool :=
  c.isDigit || ('a' ≤ c && c ≤ 'f') || ('A' ≤ c && c ≤ 'F')

/-- Value of a list of hexadecimal digit characters. -/
def hexDigitsVal (ds : List Char) : Nat :=
  ds.foldl (fun a c => 16 * a + hexDigitVal c) 0

/-- Model of `parseInt(string)` (default radix) on the character list of the
argument: skip leading whitespace, read an optional sign, detect a `0x`/`0X`
prefix (radix 16), then take the longest prefix of digits; `none` models the
`NaN` result when no digit is found. -/
def jsParseIntChars (cs : List Char) : Option Int :=
  let cs := cs.dropWhile Char.isWhitespace
  let sign : Int := match cs with | '-' :: _ => -1 | _ => 1
  let cs := match cs with | '-' :: t => t | '+' :: t => t | _ => cs
  match cs with
  | '0' :: 'x' :: t =>
      let ds := t.takeWhile isHexDigit
      if ds.isEmpty then none else some (sign * hexDigitsVal ds)
  | '0' :: 'X' :: t =>
      let ds := t.takeWhile isHexDigit
      if ds.isEmpty then none else some (sign * hexDigitsVal ds)
  | _ =>
      let ds := cs.takeWhile Char.isDigit
      if ds.isEmpty then none else some (sign * decDigitsVal ds)

/-- `parseInt` applied to a URL parameter: an absent parameter is `null`,
and `parseInt(null)` is `NaN` (modelled as `none`). -/
def jsParseInt (v : Option String) : Option Int :=
  match v with
  | none => none
  | some s => jsParseIntChars s.data

/-- Model of `parseFloat(string)` on the character list of the argument:
skip leading whitespace, read an optional sign, then decimal digits with an
optional fractional part; `none` models `NaN`.  (Exponent suffixes and
`Infinity`, never produced by this backend, are not modelled.) -/
def jsParseFloatChars (cs : List Char) : Option ℚ :=
  let cs := cs.dropWhile Char.isWhitespace
  let sign : ℚ := match cs with | '-' :: _ => -1 | _ => 1
  let cs := match cs with | '-' :: t => t | '+' :: t => t | _ => cs
  let intDs := cs.takeWhile Char.isDigit
  let rest := cs.dropWhile Char.isDigit
  let fracDs := match rest with | '.' :: t => t.takeWhile Char.isDigit | _ => []
  if intDs.isEmpty && fracDs.isEmpty then none
  else some (sign * ((decDigitsVal intDs : ℚ) +
    (decDigitsVal fracDs : ℚ) / (10 : ℚ) ^ fracDs.length))

/-- `parseFloat` applied to a URL parameter (`parseFloat(null)` is `NaN`). -/
def jsParseFloat (v : Option String) : Option ℚ :=
  match v with
  | none => none
  | some s => jsParseFloatChars s.data

/-- Decimal digit characters of `n`, most significant first (fuel-indexed so
that the recursion is structural). -/
def natDigits : Nat → Nat → List Char
  | 0, _ => []
  | fuel + 1, n =>
      if n < 10 then [Char.ofNat (48 + n)]
      else natDigits fuel (n / 10) ++ [Char.ofNat (48 + n % 10)]

/-- Decimal string of a natural number. -/
def natToStr (n : Nat) : String := ⟨natDigits (n + 1) n⟩

/-- `toFixed(2)` for a nonnegative rational: the ECMAScript algorithm picks
the integer `n` minimizing the distance of `n / 100` to the value, the larger
`n` on ties, which is `⌊q * 100 + 1/2⌋`. -/
def formatFixed2Nonneg (q : ℚ) : String :=
  let n : Nat := (⌊q * 100 + 1 / 2⌋).toNat
  natToStr (n / 100) ++ "." ++ (if n % 100 < 10 then "0" else "") ++ natToStr (n % 100)

/-- Model of `Number.prototype.toFixed(2)`: the sign is split off first, as
in the ECMAScript algorithm. -/
def formatFixed2 (q : ℚ) : String :=
  if q < 0 then "-" ++ formatFixed2Nonneg (-q) else formatFixed2Nonneg q

/-! ## Lockdown flag, page, and browser state (global.js)

`sessionStorage` is shared by every page of the browsing session; only the
key `"lockdown"` is ever used, so the store is modelled as the optional
value at that key.  A page is modelled by whether it contains the
`lockscreen` overlay element, whether that overlay is visible
(`style.display === "flex"`), and a pending navigation target if
`window.location` was assigned. -/

/-- The shared per-browsing-session store (`sessionStorage`), restricted to
the single key `"lockdown"` used by the repository. -/
structure Store where
  lockdown : Option String
deriving DecidableEq

/-- The DOM state of the currently displayed page. -/
structure Page where
  hasLockscreen : Bool
  lockscreenVisible : Bool
  location : Option String
deriving DecidableEq

/-- Shared store plus current page. -/
structure Browser where
  store : Store
  page : Page
deriving DecidableEq

/-- `trigger_emergency_mode` as defined in global.js (lines 7 to 21): write
`"true"` under the `"lockdown"` key in `sessionStorage`, then show the
overlay if the page has one, else navigate to the dedicated lock page. -/
def trigger_emergency_mode_global (b : Browser) : Browser :=
  let b := { b with store := { lockdown := some "true" } }
  if b.page.hasLockscreen then
    { b with page := { b.page with lockscreenVisible := true } }
  else
    { b with page := { b.page with location := some "lock.html" } }

/-- `trigger_emergency_mode` as redefined at the bottom of script.js
(lines 43 to 49), otp.js, and the balance page script: show the overlay if
the element exists, and nothing else — in particular no store write. -/
def trigger_emergency_mode_page (b : Browser) : Browser :=
  if b.page.hasLockscreen then
    { b with page := { b.page with lockscreenVisible := true } }
  else b

/-- The `DOMContentLoaded` listener registered by global.js (lines 24 to 29):
if the stored flag equals `"true"` and the overlay element exists, show it. -/
def onDOMContentLoaded (b : Browser) : Browser :=
  if b.store.lockdown = some "true" then
    if b.page.hasLockscreen then
      { b with page := { b.page with lockscreenVisible := true } }
    else b
  else b

/-- Observable events during one page load, in execution order. -/
inductive LoadEvent
  | startCountdown
  | checkLockdownFlag
  | showOverlay
  | backendPush
deriving DecidableEq

instance : BEq LoadEvent := ⟨fun x y => decide (x = y)⟩

/-- One full page load.  Browser semantics: the top-level statements of the
page scripts run first (script elements execute during parsing), and the
`DOMContentLoaded` event — where global.js checks the lockdown flag — fires
only after they have completed.  `initEvents` are the events of the top-level
page initialization (for the OTP page, `[.startCountdown]`, the `tick()`
call at otp.js line 33). -/
def loadPage (initEvents : List LoadEvent) (b : Browser) : Browser × List LoadEvent :=
  let checkEvents :=
    if b.store.lockdown = some "true" ∧ b.page.hasLockscreen then
      [LoadEvent.checkLockdownFlag, LoadEvent.showOverlay]
    else
      [LoadEvent.checkLockdownFlag]
  (onDOMContentLoaded b, initEvents ++ checkEvents)

/-! ## OTP page (otp.js)

The countdown state: `timeLeft` is the mutable variable of otp.js line 4,
`drawn` records the fraction of the full circle swept by each `draw()` call
(otp.js line 14: `const p = timeLeft / 60`), `countdownTexts` records the
successive remaining-seconds values rendered into the countdown element,
`status` is the text of the status element, `scheduled` records whether a
`setTimeout(tick, 1000)` is pending, and `calls` is the list of
`eel.verify_otp(username, code)` requests issued so far. -/

/-- Fraction of the full circle swept by `draw()` when the remaining time is
`t`: otp.js line 14 divides by the constant 60, not by the initial seed. -/
def sweptTurns (t : Int) : ℚ := (t : ℚ) / 60

/-- State of the OTP page. -/
structure OtpState where
  timeLeft : Int
  drawn : List ℚ
  countdownTexts : List Int
  status : Option String
  scheduled : Bool
  calls : List (String × String)
deriving DecidableEq

/-- `draw()` (otp.js lines 11 to 21): repaint the progress arc from the top
of the circle through `(timeLeft / 60) * 2 * PI` radians. -/
def draw (s : OtpState) : OtpState :=
  { s with drawn := s.drawn ++ [sweptTurns s.timeLeft] }

/-- `tick()` (otp.js lines 23 to 32): draw, render the remaining time, and
then either mark the challenge expired and stop (no new timeout) when
`timeLeft <= 0`, or decrement and schedule the next tick. -/
def tick (s : OtpState) : OtpState :=
  let s := draw s
  let s := { s with countdownTexts := s.countdownTexts ++ [s.timeLeft] }
  if s.timeLeft ≤ 0 then
    { s with status := some "⏰ OTP expired", scheduled := false }
  else
    { s with timeLeft := s.timeLeft - 1, scheduled := true }

/-- The page state right before the top-level `tick()` call at otp.js
line 33, with countdown seed `seed`. -/
def initOtp (seed : Int) : OtpState :=
  { timeLeft := seed, drawn := [], countdownTexts := [], status := none,
    scheduled := true, calls := [] }

/-- One scheduler step: run the pending `tick` callback if one is scheduled,
otherwise nothing happens (no success push arrives in these runs). -/
def step (s : OtpState) : OtpState :=
  if s.scheduled then tick s else s

/-- `run n s`: the state after `n` scheduler steps. -/
def run : Nat → OtpState → OtpState
  | 0, s => s
  | n + 1, s => run n (step s)

/-- The countdown seed read at otp.js line 4:
`parseInt(url.searchParams.get("t")) || 60` — `NaN` and `0` are falsy. -/
def timeLeftInit (t : Option String) : Int :=
  match jsParseInt t with
  | none => 60
  | some n => if n = 0 then 60 else n

/-- `submitOtp()` (otp.js lines 36 to 44): trim the input field, reject with
a validation message when the trimmed value is empty or not 6 characters
long, otherwise set the status to `Verifying...` and issue exactly one
`eel.verify_otp(username, val)` request.  Expiry is never consulted. -/
def submitOtp (username : String) (input : String) (s : OtpState) : OtpState :=
  let val := jsTrim input
  if val = "" ∨ val.length ≠ 6 then
    { s with status := some "⚠️ Enter 6 digits" }
  else
    { s with status := some "Verifying...",
             calls := s.calls ++ [(username, val)] }

/-! ## Login page (script.js lines 1 to 7) -/

/-- State of the login page: status text, issued `eel.login` requests, and
any navigation performed. -/
structure LoginState where
  status : String
  calls : List (String × String)
  location : Option String
deriving DecidableEq

/-- `login()` (script.js lines 1 to 7): trim both fields, reject locally
with a validation message if either is empty, otherwise set the status to
`Authenticating...` and issue exactly one `eel.login(user, pass)` request.
No navigation and no state transition is performed by this function. -/
def login (userField passField : String) (s : LoginState) : LoginState :=
  let user := jsTrim userField
  let pass := jsTrim passField
  if user = "" ∨ pass = "" then
    { s with status := "⚠️ Enter username & password" }
  else
    { s with status := "Authenticating...", calls := s.calls ++ [(user, pass)] }

/-! ## Main menu page (script.js, mainmenu section) -/

/-- The interactive actions the main menu can render. -/
inductive MenuAction
  | enableMaintenance
  | disableMaintenance
  | checkBalance
  | withdraw
  | deposit
  | logoutBtn
deriving DecidableEq

/-- The abstract role the spec assigns to a session. -/
inductive Role
  | customer
  | staff
deriving DecidableEq

/-- The `status` value computed by the mainmenu script:
`(url.searchParams.get("status") || "customer").toLowerCase()`. -/
def menuStatus (statusParam : Option String) : String :=
  jsToLowerCase (jsOrElse statusParam "customer")

/-- The role the mainmenu script effectively acts on: the staff branch is
taken exactly when the lowercased (defaulted) status equals `"staff"`. -/
def roleOf (statusParam : Option String) : Role :=
  if menuStatus statusParam = "staff" then Role.staff else Role.customer

/-- The action buttons rendered by the mainmenu script: maintenance toggles
plus logout for the staff branch; balance, withdraw, deposit, and logout
otherwise. -/
def renderMenu (statusParam : Option String) : List MenuAction :=
  if menuStatus statusParam = "staff" then
    [MenuAction.enableMaintenance, MenuAction.disableMaintenance, MenuAction.logoutBtn]
  else
    [MenuAction.checkBalance, MenuAction.withdraw, MenuAction.deposit, MenuAction.logoutBtn]

/-! ## Balance detail page (the unnamed balance script) -/

/-- The text written into the balance-amount element: the sentinel string
`"Error"` is compared with strict equality and surfaced as a dedicated
message; any other carried value goes through
`parseFloat(bal).toFixed(2)` prefixed with `RM `. -/
def balanceDisplay (bal : Option String) : String :=
  if bal = some "Error" then "Error retrieving balance"
  else
    "RM " ++ (match jsParseFloat bal with
      | some q => formatFixed2 q
      | none => "NaN")

/-! ## Scheduler lemmas for the countdown -/

lemma step_of_scheduled (s : OtpState) (h : s.scheduled = true) : step s = tick s := by
  simp [step, h]

lemma run_succ_right (n : Nat) (s : OtpState) : run (n + 1) s = step (run n s) := by
  induction n generalizing s with
  | zero => rfl
  | succ n ih => exact ih (step s)

lemma run_add (a b : Nat) (s : OtpState) : run (a + b) s = run b (run a s) := by
  induction b with
  | zero => rfl
  | succ b ih => rw [show a + (b + 1) = (a + b) + 1 from rfl, run_succ_right, ih, ← run_succ_right]

lemma run_fix (s : OtpState) (h : s.scheduled = false) : ∀ m, run m s = s := by
  intro m
  induction m with
  | zero => rfl
  | succ m ih => rw [run_succ_right, ih]; simp [step, h]

lemma tick_pos (t : Int) (dr : List ℚ) (ct : List Int) (st : Option String)
    (cs : List (String × String)) (h : 0 < t) :
    tick ⟨t, dr, ct, st, true, cs⟩
      = ⟨t - 1, dr ++ [sweptTurns t], ct ++ [t], st, true, cs⟩ := by
  unfold tick draw
  simp only []
  rw [if_neg (by simp; omega)]

lemma tick_exp (t : Int) (dr : List ℚ) (ct : List Int) (st : Option String)
    (cs : List (String × String)) (h : t ≤ 0) :
    tick ⟨t, dr, ct, st, true, cs⟩
      = ⟨t, dr ++ [sweptTurns t], ct ++ [t], some "⏰ OTP expired", false, cs⟩ := by
  unfold tick draw
  simp only []
  rw [if_pos (by simpa using h)]

/-- For `k` ticks with `k ≤ N`, the countdown from seed `N` has displayed
`N, N-1, ..., N-k+1`, holds `N - k` seconds, is not expired, and has the
next tick scheduled. -/
lemma run_char (N k : Nat) (hk : k ≤ N) :
    run k (initOtp N) =
      ⟨(N : Int) - k,
       (List.range k).map (fun (i : Nat) => sweptTurns ((N : Int) - i)),
       (List.range k).map (fun (i : Nat) => (N : Int) - i),
       none, true, []⟩ := by
  induction k with
  | zero => simp [run, initOtp]
  | succ k ih =>
      have hk' : k ≤ N := Nat.le_of_succ_le hk
      rw [run_succ_right, ih hk', step_of_scheduled _ rfl,
        tick_pos _ _ _ _ _ (by omega)]
      simp [List.range_succ]
      omega

/-- After `N + 1` ticks the countdown from seed `N` has displayed every
value from `N` down to `0`, is expired, and has no further tick pending. -/
lemma run_final (N : Nat) :
    run (N + 1) (initOtp N) =
      ⟨0,
       (List.range (N + 1)).map (fun (i : Nat) => sweptTurns ((N : Int) - i)),
       (List.range (N + 1)).map (fun (i : Nat) => (N : Int) - i),
       some "⏰ OTP expired", false, []⟩ := by
  rw [run_succ_right, run_char N N le_rfl, step_of_scheduled _ rfl,
    tick_exp _ _ _ _ _ (by omega)]
  simp [List.range_succ]

/-! ## Claim theorems -/

/-- Claim C1, counterexample: the claim says every invocation of the
`trigger_emergency_mode` handler, on every page, writes the lockdown flag
into the shared per-session store.  The handler actually defined on the
login, OTP, main-menu, and balance pages (script.js lines 43 to 49 and its
copies) leaves the store untouched: invoked on a page with the overlay
element and an empty store, the flag is still unset afterwards. -/
theorem page_trigger_no_store_write :
    (trigger_emergency_mode_page ⟨⟨none⟩, ⟨true, false, none⟩⟩).store.lockdown
      ≠ some "true" := by
  decide

/-- Claim C1, amended: the `trigger_emergency_mode` defined in global.js
always writes `"true"` under the lockdown key of the shared per-session
store, while the page-local redefinitions of the handler in script.js,
otp.js, and the balance page script never modify the store (they only make
the overlay visible when the element exists). -/
theorem trigger_store_write_amended (b : Browser) :
    (trigger_emergency_mode_global b).store.lockdown = some "true" ∧
    (trigger_emergency_mode_page b).store = b.store := by
  constructor
  · unfold trigger_emergency_mode_global
    cases h : b.page.hasLockscreen <;> simp [h]
  · unfold trigger_emergency_mode_page
    cases h : b.page.hasLockscreen <;> simp [h]

/-- Claim C2, counterexample: the claim says a page load in a locked-down
session shows the overlay before any other initialization logic runs.  On
the OTP page load with the flag set and the overlay element present, the
load trace is countdown start, then flag check, then overlay display: the
overlay event does not precede the top-level initialization, because the
check lives in a `DOMContentLoaded` listener and those fire only after the
page scripts have executed. -/
theorem overlay_after_init_counterexample :
    (loadPage [LoadEvent.startCountdown] ⟨⟨some "true"⟩, ⟨true, false, none⟩⟩).2
      = [LoadEvent.startCountdown, LoadEvent.checkLockdownFlag, LoadEvent.showOverlay] ∧
    ¬ ((loadPage [LoadEvent.startCountdown] ⟨⟨some "true"⟩, ⟨true, false, none⟩⟩).2.indexOf
          LoadEvent.showOverlay
        < (loadPage [LoadEvent.startCountdown] ⟨⟨some "true"⟩, ⟨true, false, none⟩⟩).2.indexOf
          LoadEvent.startCountdown) := by
  decide

/-- Claim C2, amended: on every page load in a session whose lockdown flag
is set, and whose page has the overlay element, the load itself makes the
overlay visible with no backend push involved — but only in the
`DOMContentLoaded` phase, after the top-level initialization of the page
scripts has already run. -/
theorem overlay_on_load_amended (initEvents : List LoadEvent) (b : Browser)
    (hflag : b.store.lockdown = some "true") (hlock : b.page.hasLockscreen = true)
    (hpush : LoadEvent.backendPush ∉ initEvents) :
    (loadPage initEvents b).1.page.lockscreenVisible = true ∧
    LoadEvent.backendPush ∉ (loadPage initEvents b).2 ∧
    (loadPage initEvents b).2
      = initEvents ++ [LoadEvent.checkLockdownFlag, LoadEvent.showOverlay] := by
  unfold loadPage onDOMContentLoaded
  simp [hflag, hlock, hpush]

/-- Claim C2, witness: the amended load theorem applied to the OTP page
with the flag set. -/
theorem overlay_on_load_amended_witness :
    ((⟨⟨some "true"⟩, ⟨true, false, none⟩⟩ : Browser).store.lockdown = some "true") ∧
    ((loadPage [LoadEvent.startCountdown]
        ⟨⟨some "true"⟩, ⟨true, false, none⟩⟩).1.page.lockscreenVisible = true ∧
     LoadEvent.backendPush
        ∉ (loadPage [LoadEvent.startCountdown] ⟨⟨some "true"⟩, ⟨true, false, none⟩⟩).2 ∧
     (loadPage [LoadEvent.startCountdown] ⟨⟨some "true"⟩, ⟨true, false, none⟩⟩).2
        = [LoadEvent.startCountdown]
            ++ [LoadEvent.checkLockdownFlag, LoadEvent.showOverlay]) :=
  ⟨rfl, overlay_on_load_amended [LoadEvent.startCountdown]
    ⟨⟨some "true"⟩, ⟨true, false, none⟩⟩ rfl rfl (by decide)⟩

/-- Claim C3: from seed `N ≥ 1`, with no success push, the ticks display
`N` down to `0` (all nonnegative), the tick that displays `0` marks the
challenge expired, the expired status is not set by any earlier tick, no
further tick is ever scheduled, and the state never changes again. -/
theorem countdown_expires_once (N : Nat) (hN : 1 ≤ N) :
    (run (N + 1) (initOtp N)).status = some "⏰ OTP expired" ∧
    (run (N + 1) (initOtp N)).scheduled = false ∧
    (∀ k, k ≤ N → (run k (initOtp N)).status = none) ∧
    (∀ m, run m (run (N + 1) (initOtp N)) = run (N + 1) (initOtp N)) ∧
    (∀ m x, x ∈ (run m (initOtp N)).countdownTexts → 0 ≤ x) ∧
    (run (N + 1) (initOtp N)).countdownTexts
      = (List.range (N + 1)).map (fun (i : Nat) => (N : Int) - i) := by
  refine ⟨?_, ?_, ?_, ?_, ?_, ?_⟩
  · rw [run_final]
  · rw [run_final]
  · intro k hk; rw [run_char N k hk]
  · intro m
    exact run_fix _ (by rw [run_final]) m
  · intro m x hx
    rcases Nat.lt_or_ge m (N + 1) with hm | hm
    · rw [run_char N m (Nat.lt_succ_iff.mp hm)] at hx
      simp only [List.mem_map, List.mem_range] at hx
      obtain ⟨i, hi, rfl⟩ := hx
      omega
    · obtain ⟨r, rfl⟩ : ∃ r, m = (N + 1) + r := ⟨m - (N + 1), by omega⟩
      rw [run_add, run_fix _ (by rw [run_final]) r, run_final] at hx
      simp only [List.mem_map, List.mem_range] at hx
      obtain ⟨i, hi, rfl⟩ := hx
      omega
  · rw [run_final]

/-- Claim C3, witness: the countdown theorem at seed 2. -/
theorem countdown_expires_once_witness :
    1 ≤ 2 ∧
    ((run (2 + 1) (initOtp 2)).status = some "⏰ OTP expired" ∧
     (run (2 + 1) (initOtp 2)).scheduled = false ∧
     (∀ k, k ≤ 2 → (run k (initOtp 2)).status = none) ∧
     (∀ m, run m (run (2 + 1) (initOtp 2)) = run (2 + 1) (initOtp 2)) ∧
     (∀ m x, x ∈ (run m (initOtp 2)).countdownTexts → 0 ≤ x) ∧
     (run (2 + 1) (initOtp 2)).countdownTexts
       = (List.range (2 + 1)).map (fun (i : Nat) => ((2 : Nat) : Int) - i)) :=
  ⟨by decide, countdown_expires_once 2 (by decide)⟩

/-- Claim C4, counterexample: the claim says the swept angle of the circular
indicator is proportional to `remainingSeconds / initialSeconds` for every
seed.  With seed 30, the first tick draws 30 / 60 = half of the circle,
although `remainingSeconds / initialSeconds` is 30 / 30, a full sweep:
the divisor in `draw()` is the constant 60, not the seed. -/
theorem swept_fraction_counterexample :
    (run 1 (initOtp 30)).drawn = [(30 : ℚ) / 60] ∧
    (30 : ℚ) / 60 ≠ (30 : ℚ) / 30 := by
  constructor
  · have h : run 1 (initOtp 30) = tick (initOtp 30) := rfl
    rw [h, show (initOtp 30) = ⟨30, [], [], none, true, []⟩ from rfl,
      tick_pos _ _ _ _ _ (by omega)]
    simp [sweptTurns]
  · norm_num

/-- Claim C4, amended: on every tick of the countdown from seed `N`, the
fraction of the circle swept is `remainingSeconds / 60` — the divisor is
the constant 60 — and this coincides with the claimed
`remainingSeconds / initialSeconds` exactly when the seed is 60. -/
theorem swept_fraction_amended (N k : Nat) (hk : k ≤ N + 1) :
    (run k (initOtp N)).drawn
      = (List.range k).map (fun (i : Nat) => (((N : Int) - i : Int) : ℚ) / 60) ∧
    (N = 60 →
      (run k (initOtp N)).drawn
        = (List.range k).map (fun (i : Nat) => (((N : Int) - i : Int) : ℚ) / (N : ℚ))) := by
  have hdrawn : (run k (initOtp N)).drawn
      = (List.range k).map (fun (i : Nat) => sweptTurns ((N : Int) - i)) := by
    rcases Nat.lt_or_ge k (N + 1) with h | h
    · rw [run_char N k (by omega)]
    · have hkN : k = N + 1 := by omega
      subst hkN
      rw [run_final]
  constructor
  · rw [hdrawn]
    simp [sweptTurns]
  · intro h60
    subst h60
    rw [hdrawn]
    simp [sweptTurns]

/-- Claim C4, witness: the amended sweep theorem at seed 30 after one
tick. -/
theorem swept_fraction_amended_witness :
    (1 ≤ 30 + 1) ∧
    ((run 1 (initOtp 30)).drawn
       = (List.range 1).map (fun (i : Nat) => ((((30 : Nat) : Int) - i : Int) : ℚ) / 60) ∧
     ((30 : Nat) = 60 →
       (run 1 (initOtp 30)).drawn
         = (List.range 1).map (fun (i : Nat) => ((((30 : Nat) : Int) - i : Int) : ℚ) / ((30 : Nat) : ℚ)))) :=
  ⟨by decide, swept_fraction_amended 30 1 (by decide)⟩

/-- Claim C5, counterexample: the claim says that once the countdown has
expired no further verification request is issued even if another code is
submitted.  From seed 1, after 2 ticks the challenge is expired and no
request has been issued; submitting the 6-character code `123456` then
issues a verification request anyway, because `submitOtp` never consults
expiry. -/
theorem submit_after_expiry_counterexample :
    (run 2 (initOtp 1)).status = some "⏰ OTP expired" ∧
    (run 2 (initOtp 1)).calls = [] ∧
    (submitOtp "alice" "123456" (run 2 (initOtp 1))).calls
      = [("alice", "123456")] := by
  refine ⟨?_, ?_, ?_⟩ <;> decide

/-- Claim C5, amended: expiry does not gate submission — in any state,
including one whose status already shows the expiry message, `submitOtp`
with a code of trimmed length 6 issues one more verification request (and
leaves the stopped timer stopped). -/
theorem submit_after_expiry_amended (username input : String) (s : OtpState)
    (hexp : s.status = some "⏰ OTP expired")
    (hlen : (jsTrim input).length = 6) :
    (submitOtp username input s).calls = s.calls ++ [(username, jsTrim input)] ∧
    (submitOtp username input s).scheduled = s.scheduled := by
  have hne : ¬ (jsTrim input = "" ∨ (jsTrim input).length ≠ 6) := by
    push_neg
    refine ⟨?_, hlen⟩
    intro he
    rw [he] at hlen
    exact absurd hlen (by decide)
  simp only [submitOtp]
  rw [if_neg hne]
  exact ⟨rfl, rfl⟩

/-- Claim C5, witness: the amended submission theorem applied to the
concrete expired state reached from seed 1. -/
theorem submit_after_expiry_amended_witness :
    ((run 2 (initOtp 1)).status = some "⏰ OTP expired") ∧
    ((jsTrim "123456").length = 6) ∧
    ((submitOtp "alice" "123456" (run 2 (initOtp 1))).calls
        = (run 2 (initOtp 1)).calls ++ [("alice", jsTrim "123456")] ∧
     (submitOtp "alice" "123456" (run 2 (initOtp 1))).scheduled
        = (run 2 (initOtp 1)).scheduled) :=
  ⟨by decide, by decide,
   submit_after_expiry_amended "alice" "123456" (run 2 (initOtp 1))
     (by decide) (by decide)⟩

/-- Claim C6: if either login field is empty after trimming, `login` only
sets the validation message — no backend call, no navigation; otherwise it
sets the `Authenticating...` status, issues exactly one backend login
request with the trimmed fields, and performs no navigation or state
transition itself. -/
theorem login_validation (userField passField : String) (s : LoginState) :
    (jsTrim userField = "" ∨ jsTrim passField = "" →
        login userField passField s
          = { s with status := "⚠️ Enter username & password" }) ∧
    (jsTrim userField ≠ "" → jsTrim passField ≠ "" →
        login userField passField s
          = { s with status := "Authenticating...",
                     calls := s.calls ++ [(jsTrim userField, jsTrim passField)] }) := by
  constructor
  · intro h
    simp only [login]
    rw [if_pos h]
  · intro hu hp
    simp only [login]
    rw [if_neg (by push_neg; exact ⟨hu, hp⟩)]

/-- Claim C6, witness: a concrete valid login issues exactly the one
request, and a blank credential is rejected locally. -/
theorem login_validation_witness :
    (jsTrim "alice" ≠ "") ∧ (jsTrim "pw1" ≠ "") ∧
    login "alice" "pw1" ⟨"", [], none⟩
      = ⟨"Authenticating...", [("alice", "pw1")], none⟩ :=
  ⟨by decide, by decide,
   (login_validation "alice" "pw1" ⟨"", [], none⟩).2 (by decide) (by decide)⟩

/-- Claim C7, counterexample: the claim says every code input whose length
is not exactly 6 is rejected with no backend call.  The input
`" 123456 "` has length 8, yet `submitOtp` trims it first and issues a
verification request. -/
theorem otp_length_counterexample :
    (" 123456 " : String).length ≠ 6 ∧
    (submitOtp "bob" " 123456 " (initOtp 60)).calls = [("bob", "123456")] := by
  refine ⟨by decide, by decide⟩

/-- Claim C7, amended: `submitOtp` validates the trimmed input: if the
trimmed value is empty or its length is not 6 it sets the validation
message and issues no backend call; if the trimmed value has exactly 6
characters it issues exactly one verification request. -/
theorem submit_otp_validation (username input : String) (s : OtpState) :
    (jsTrim input = "" ∨ (jsTrim input).length ≠ 6 →
        submitOtp username input s
          = { s with status := some "⚠️ Enter 6 digits" }) ∧
    ((jsTrim input).length = 6 →
        submitOtp username input s
          = { s with status := some "Verifying...",
                     calls := s.calls ++ [(username, jsTrim input)] }) := by
  constructor
  · intro h
    simp only [submitOtp]
    rw [if_pos h]
  · intro h
    have hne : ¬ (jsTrim input = "" ∨ (jsTrim input).length ≠ 6) := by
      push_neg
      refine ⟨?_, h⟩
      intro he
      rw [he] at h
      exact absurd h (by decide)
    simp only [submitOtp]
    rw [if_neg hne]

/-- Claim C7, witness: a 6-character code issues the one verification
request; an overlong raw input is governed by its trimmed form. -/
theorem submit_otp_validation_witness :
    ((jsTrim "123456").length = 6) ∧
    submitOtp "bob" "123456" (initOtp 60)
      = ⟨60, [], [], some "Verifying...", true, [("bob", "123456")]⟩ :=
  ⟨by decide, (submit_otp_validation "bob" "123456" (initOtp 60)).2 (by decide)⟩

/-- Claim C8: every carried balance outcome is rendered — the sentinel
`"Error"` as the dedicated error message, a parsed amount as `RM ` followed
by the amount in the modelled `toFixed(2)` format, and every other carried
value still as some `RM `-prefixed text, never an unhandled state. -/
theorem balance_display_total (bal : Option String) :
    (bal = some "Error" → balanceDisplay bal = "Error retrieving balance") ∧
    (∀ q : ℚ, jsParseFloat bal = some q →
        bal ≠ some "Error" →
        balanceDisplay bal = "RM " ++ formatFixed2 q) ∧
    (balanceDisplay bal = "Error retrieving balance" ∨
      ∃ t, balanceDisplay bal = "RM " ++ t) := by
  refine ⟨?_, ?_, ?_⟩
  · intro h
    simp only [balanceDisplay]
    rw [if_pos h]
  · intro q hq hne
    simp only [balanceDisplay]
    rw [if_neg hne, hq]
  · by_cases h : bal = some "Error"
    · left
      simp only [balanceDisplay]
      rw [if_pos h]
    · right
      simp only [balanceDisplay]
      rw [if_neg h]
      cases jsParseFloat bal with
      | none => exact ⟨"NaN", rfl⟩
      | some q => exact ⟨formatFixed2 q, rfl⟩

/-- Claim C8, witness: the sentinel is rendered as the error message, and
the concrete carried amount `12.5` is rendered as `RM 12.50`. -/
theorem balance_display_total_witness :
    balanceDisplay (some "Error") = "Error retrieving balance" ∧
    jsParseFloat (some "12.5") = some ((25 : ℚ) / 2) ∧
    balanceDisplay (some "12.5") = "RM " ++ formatFixed2 ((25 : ℚ) / 2) ∧
    balanceDisplay (some "12.5") = "RM 12.50" := by
  have hq : jsParseFloat (some "12.5") = some ((25 : ℚ) / 2) := by
    have hq0 : jsParseFloat (some "12.5")
        = some ((1 : ℚ) * (((12 : Nat) : ℚ) + ((5 : Nat) : ℚ) / (10 : ℚ) ^ (1 : Nat))) := rfl
    rw [hq0, Option.some.injEq]
    push_cast
    norm_num
  have hfmt : formatFixed2 ((25 : ℚ) / 2) = "12.50" := by
    have hfloor : (⌊(25 : ℚ) / 2 * 100 + 1 / 2⌋ : Int) = 1250 := by norm_num
    have hneg : ¬ ((25 : ℚ) / 2 < 0) := by norm_num
    simp only [formatFixed2, formatFixed2Nonneg, hfloor, if_neg hneg]
    decide
  refine ⟨(balance_display_total (some "Error")).1 rfl, hq,
    (balance_display_total (some "12.5")).2.1 _ hq (by decide), ?_⟩
  rw [(balance_display_total (some "12.5")).2.1 _ hq (by decide), hfmt]
  decide

/-- Claim C9, counterexample: the claim says every carried role value other
than staff falls back to the customer menu.  The carried value `"Staff"`
differs from `"staff"`, yet the menu rendered for it is the staff menu,
not the customer menu: the comparison is on the lowercased value. -/
theorem menu_role_case_counterexample :
    (some "Staff" : Option String) ≠ some "staff" ∧
    renderMenu (some "Staff")
      ≠ [MenuAction.checkBalance, MenuAction.withdraw, MenuAction.deposit,
         MenuAction.logoutBtn] ∧
    renderMenu (some "Staff")
      = [MenuAction.enableMaintenance, MenuAction.disableMaintenance,
         MenuAction.logoutBtn] := by
  refine ⟨by decide, by decide, by decide⟩

/-- Claim C9, amended: the staff test is case-insensitive on the carried
value after defaulting: exactly the values whose lowercase form is
`"staff"` get the maintenance-toggle and logout menu (and never balance,
withdraw, or deposit), every other carried value — absent and empty
included — acts as the customer role and gets balance, withdraw, deposit,
and logout. -/
theorem menu_role_amended (statusParam : Option String) :
    (roleOf statusParam = Role.staff →
        renderMenu statusParam
          = [MenuAction.enableMaintenance, MenuAction.disableMaintenance,
             MenuAction.logoutBtn] ∧
        MenuAction.checkBalance ∉ renderMenu statusParam ∧
        MenuAction.withdraw ∉ renderMenu statusParam ∧
        MenuAction.deposit ∉ renderMenu statusParam) ∧
    (roleOf statusParam = Role.customer →
        renderMenu statusParam
          = [MenuAction.checkBalance, MenuAction.withdraw, MenuAction.deposit,
             MenuAction.logoutBtn]) ∧
    roleOf none = Role.customer ∧
    (roleOf statusParam = Role.staff ↔ menuStatus statusParam = "staff") := by
  refine ⟨?_, ?_, by decide, ?_⟩ <;>
    by_cases h : menuStatus statusParam = "staff" <;>
      simp [roleOf, renderMenu, h]

/-- Claim C9, witness: the amended menu theorem at the carried value
`"staff"`. -/
theorem menu_role_amended_witness :
    (roleOf (some "staff") = Role.staff) ∧
    (renderMenu (some "staff")
        = [MenuAction.enableMaintenance, MenuAction.disableMaintenance,
           MenuAction.logoutBtn] ∧
     MenuAction.checkBalance ∉ renderMenu (some "staff") ∧
     MenuAction.withdraw ∉ renderMenu (some "staff") ∧
     MenuAction.deposit ∉ renderMenu (some "staff")) :=
  ⟨by decide, (menu_role_amended (some "staff")).1 (by decide)⟩

/-- Claim C10: a countdown-seed parameter that is absent, non-numeric
(`parseInt` gives `NaN`), or parses to 0 starts the countdown at 60; in
particular a backend seed of `"0"` yields 60 seconds, and the first tick of
that challenge does not expire it. -/
theorem countdown_seed_default (t : Option String) :
    (t = none → timeLeftInit t = 60) ∧
    (jsParseInt t = none → timeLeftInit t = 60) ∧
    (jsParseInt t = some 0 → timeLeftInit t = 60) ∧
    timeLeftInit (some "0") = 60 ∧
    (run 1 (initOtp (timeLeftInit (some "0")))).status = none := by
  refine ⟨?_, ?_, ?_, by decide, by decide⟩
  · intro h
    rw [h]
    rfl
  · intro h
    simp only [timeLeftInit]
    rw [h]
  · intro h
    simp only [timeLeftInit]
    rw [h]
    rfl

/-- Claim C10, witness: the seed-default theorem applied to the concrete
non-numeric parameter `"abc"` and to a parameter parsing to 0. -/
theorem countdown_seed_default_witness :
    (jsParseInt (some "abc") = none) ∧ timeLeftInit (some "abc") = 60 ∧
    (jsParseInt (some "-0") = some 0) ∧ timeLeftInit (some "-0") = 60 :=
  ⟨by decide, (countdown_seed_default (some "abc")).2.1 (by decide),
   by decide, (countdown_seed_default (some "-0")).2.2.1 (by decide)⟩

end Kiosk
